import Mathlib

/-
  Verification of the raytracing demo (src/raytracing-main/main.cpp).

  The repository composes the external bardrix math/windowing library; its
  own logic is the shading function calculate_light_intensity and the
  per-pixel compositing loop of the on_paint callback, plus the keyboard,
  resize and startup handlers.  Doubles are modelled as real numbers; the
  external bardrix value types (points, vectors, colors, lights, camera)
  are modelled from their documented contracts, and the shading and
  compositing code is translated line by line from main.cpp.
-/

noncomputable section

/-- Models the bardrix 3D point type (external library): an x, y, z triple of reals. -/
structure point3 where
  x : ℝ
  y : ℝ
  z : ℝ


/-- Models the bardrix 3D vector type (external library). -/
structure vector3 where
  x : ℝ
  y : ℝ
  z : ℝ


/-- Dot product of two vectors (bardrix vector3 dot). -/
def vector3.dot (a b : vector3) : ℝ := a.x * b.x + a.y * b.y + a.z * b.z

/-- Scalar multiple of a vector. -/
def vector3.smul (t : ℝ) (v : vector3) : vector3 := ⟨t * v.x, t * v.y, t * v.z⟩

/-- Vector difference. -/
def vector3.sub (a b : vector3) : vector3 := ⟨a.x - b.x, a.y - b.y, a.z - b.z⟩

/-- Vector sum. -/
def vector3.add (a b : vector3) : vector3 := ⟨a.x + b.x, a.y + b.y, a.z + b.z⟩

/-- Cross product (used by the A and D movement keys). -/
def vector3.cross (a b : vector3) : vector3 :=
⟨a.y * b.z - a.z * b.y, a.z * b.x - a.x * b.z, a.x * b.y - a.y * b.x⟩

/-- Euclidean length of a vector. -/
def vector3.length (v : vector3) : ℝ := Real.sqrt (v.dot v)

/-- Unit vector in the direction of v (bardrix normalized; degenerate for the
zero vector, which callers must avoid per the library contract). -/
def vector3.normalized (v : vector3) : vector3 :=
⟨v.x / v.length, v.y / v.length, v.z / v.length⟩

/-- Vector from p to q (bardrix point3 vector_to). -/
def point3.vector_to (p q : point3) : vector3 := ⟨q.x - p.x, q.y - p.y, q.z - p.z⟩

/-- Squared Euclidean distance between two points. -/
def point3.distance_squared (p q : point3) : ℝ :=
(q.x - p.x) ^ 2 + (q.y - p.y) ^ 2 + (q.z - p.z) ^ 2

/-- Translate a point by a vector (position += vector in the key handler). -/
def point3.add_v (p : point3) (v : vector3) : point3 := ⟨p.x + v.x, p.y + v.y, p.z + v.z⟩

/-- Translate a point by the negation of a vector (position -= vector). -/
def point3.sub_v (p : point3) (v : vector3) : point3 := ⟨p.x - v.x, p.y - v.y, p.z - v.z⟩

/-- Models bardrix quaternion mirror (external library): the reflection of
vector v about the unit normal n, namely 2 (v . n) n - v.  Used by
calculate_light_intensity, main.cpp line 39. -/
def quaternion.mirror (v n : vector3) : vector3 :=
(vector3.smul (2 * v.dot n) n).sub v

/-- Models bardrix quaternion rotate_degrees (external library): Rodrigues
rotation of v about the normalized axis by the given angle in degrees.
Used by the arrow-key handlers, main.cpp lines 144-153. -/
def quaternion.rotate_degrees (v axis : vector3) (deg : ℝ) : vector3 :=
let k := axis.normalized
let t := deg * Real.pi / 180
(vector3.smul (Real.cos t) v).add
  ((vector3.smul (Real.sin t) (k.cross v)).add
    (vector3.smul ((k.dot v) * (1 - Real.cos t)) k))

/-- Models the bardrix color type (external library): red, green, blue, alpha
channels, modelled as reals. -/
structure color where
  r : ℝ
  g : ℝ
  b : ℝ
  a : ℝ


/-- The black color used as the background and as the accumulator seed. -/
def color.black : color := ⟨0, 0, 0, 255⟩

/-- Models bardrix color addition (the += in the light accumulation loop):
componentwise addition of the color channels. -/
def color.add (c d : color) : color := ⟨c.r + d.r, c.g + d.g, c.b + d.b, c.a + d.a⟩

/-- Models bardrix color * scalar (scaling a color by a light intensity):
the color channels are scaled, alpha is kept. -/
def color.smul (c : color) (t : ℝ) : color := ⟨c.r * t, c.g * t, c.b * t, c.a⟩

/-- Models bardrix color blended (external library): a commutative
color-mixing operation, modelled as the componentwise average. -/
def color.blended (c d : color) : color :=
⟨(c.r + d.r) / 2, (c.g + d.g) / 2, (c.b + d.b) / 2, (c.a + d.a) / 2⟩

/-- Clamp a real channel value into the byte range 0..255. -/
def color.byte (t : ℝ) : ℕ := (max 0 (min 255 ⌊t⌋)).toNat

/-- Models bardrix color argb (external library): the packed 32-bit pixel
value in ARGB channel order, written into the frame buffer. -/
def color.argb (c : color) : ℕ :=
color.byte c.a * 2 ^ 24 + color.byte c.r * 2 ^ 16 + color.byte c.g * 2 ^ 8 + color.byte c.b

/-- Models the bardrix material type: Phong coefficients, shininess exponent
and a base color. -/
structure material where
  ambient : ℝ
  diffuse : ℝ
  specular : ℝ
  shininess : ℝ
  color : color

/-- Models the bardrix light type: position, intensity and color. -/
structure light where
  position : point3
  intensity : ℝ
  color : color

/-- Models bardrix light inverse_square_law (external library): the light
intensity attenuated by the squared distance from the light to the point. -/
def light.inverse_square_law (l : light) (p : point3) : ℝ :=
l.intensity / point3.distance_squared l.position p

/-- Models the bardrix camera type: position, view direction, viewport
width and height, field of view. -/
structure camera where
  position : point3
  direction : vector3
  width : ℕ
  height : ℕ
  fov : ℝ

/-- Models the bardrix ray type: origin, direction and a maximum length. -/
structure ray where
  origin : point3
  direction : vector3
  length : ℝ

/-- Models the external bardrix camera ray-generation contract: shoot_ray is
a deterministic function of the camera state, the pixel coordinates and the
maximum trace distance; the precise direction formula is internal to the
library, modelled here as a fixed function of those inputs. -/
def camera.shoot_ray (c : camera) (px py : ℕ) (dist : ℝ) : ray :=
⟨c.position,
  ⟨c.direction.x + ((px : ℝ) - (c.width : ℝ) / 2) / ((c.width : ℝ) + 1),
   c.direction.y + ((py : ℝ) - (c.height : ℝ) / 2) / ((c.height : ℝ) + 1),
   c.direction.z⟩,
  dist⟩

/-- Models the abstract bardrix shape interface consumed by main.cpp (the
concrete sphere of sphere.h implements it): the outward normal at a surface
point, the material, and the ray intersection test returning an optional
intersection point. -/
structure shape where
  normal_at : point3 → vector3
  get_material : material
  intersection : ray → Option point3

/-- Dot product of the shape normal with the unit vector from the point
toward the light position: the angle variable of main.cpp lines 30-33. -/
def diffuse_angle (s : shape) (l : light) (ip : point3) : ℝ :=
(s.normal_at ip).dot ((ip.vector_to l.position).normalized)

/-- Dot product of the mirror reflection of the light direction about the
normal with the unit vector from the camera position toward the point: the
specular_angle variable of main.cpp lines 39-41. -/
def specular_angle (s : shape) (c : camera) (l : light) (ip : point3) : ℝ :=
(quaternion.mirror ((ip.vector_to l.position).normalized) (s.normal_at ip)).dot
  ((c.position.vector_to ip).normalized)

/-- The shading function of main.cpp lines 28-51: if the diffuse angle is
negative the light is behind the surface and the intensity is 0; otherwise
Phong shading (ambient + diffuse * angle + specular coefficient times the
unclamped specular angle raised to the shininess) attenuated by the inverse
square law and capped at 1. -/
def calculate_light_intensity (s : shape) (l : light) (c : camera) (ip : point3) : ℝ :=
if diffuse_angle s l ip < 0 then 0
else
  min 1 ((s.get_material.ambient
    + s.get_material.diffuse * diffuse_angle s l ip
    + s.get_material.specular * (specular_angle s c l ip) ^ s.get_material.shininess)
    * l.inverse_square_law ip)

/-- Modelled from the spec: the shading algorithm of section 4.1 with the
clamped specular-base policy of step 6, namely specular =
max(specular_angle, 0) ^ shininess; otherwise identical to
calculate_light_intensity. -/
def shade_spec_clamped (s : shape) (l : light) (c : camera) (ip : point3) : ℝ :=
if diffuse_angle s l ip < 0 then 0
else
  min 1 ((s.get_material.ambient
    + s.get_material.diffuse * diffuse_angle s l ip
    + s.get_material.specular * (max (specular_angle s c l ip) 0) ^ s.get_material.shininess)
    * l.inverse_square_law ip)

/-- The inner light loop of on_paint (main.cpp lines 97-101): the per-shape
accumulator summing, over the lights in order, the material base color
blended with the light color and scaled by the shading intensity. -/
def shape_light_accum (s : shape) (lights : List light) (c : camera) (ip : point3) : color :=
lights.foldl
  (fun tmp l => tmp.add ((s.get_material.color.blended l.color).smul
    (calculate_light_intensity s l c ip)))
  color.black

/-- The per-pixel shape loop of on_paint (main.cpp lines 90-104): shoot the
pixel ray with maximum distance 10, start from black, and for each shape in
order replace the pixel color by that shape's light accumulator whenever the
intersection test succeeds. -/
def shade_pixel (c : camera) (shapes : List shape) (lights : List light) (px py : ℕ) : color :=
shapes.foldl
  (fun col s =>
    match s.intersection (c.shoot_ray px py 10) with
    | some ip => shape_light_accum s lights c ip
    | none => col)
  color.black

/-- The frame-buffer writing loop of on_paint (main.cpp lines 88-108): for
each row y and column x the packed pixel color is stored at the row-major
offset y * width + x; the buffer is modelled as a function from offsets to
stored values. -/
def paint_buffer (c : camera) (shapes : List shape) (lights : List light)
    (w h : ℕ) (buf : ℕ → ℕ) : ℕ → ℕ :=
(List.range h).foldl
  (fun b y =>
    (List.range w).foldl
      (fun b x => Function.update b (y * w + x) ((shade_pixel c shapes lights x y).argb))
      b)
  buf

/-- The list of (offset, packed color) writes issued by one row of the paint
loop, in column order. -/
def row_writes (c : camera) (shapes : List shape) (lights : List light)
    (w y : ℕ) : List (ℕ × ℕ) :=
(List.range w).map (fun x => (y * w + x, (shade_pixel c shapes lights x y).argb))

/-- The list of all (offset, packed color) writes issued by one full paint
pass, rows in order. -/
def frame_writes (c : camera) (shapes : List shape) (lights : List light)
    (w h : ℕ) : List (ℕ × ℕ) :=
(List.range h).flatMap (row_writes c shapes lights w)

/-- Apply a list of (offset, value) writes to a buffer in order. -/
def apply_writes : List (ℕ × ℕ) → (ℕ → ℕ) → (ℕ → ℕ)
| [], f => f
| kv :: t, f => apply_writes t (Function.update f kv.1 kv.2)

/-- The per-frame animation step applied to the designated light
(main.cpp lines 111-114): position moved by (0.1, 0.05, -0.1) and
intensity increased by 0.1; the color is untouched. -/
def light_step (l : light) : light :=
⟨⟨l.position.x + 0.1, l.position.y + 0.05, l.position.z - 0.1⟩, l.intensity + 0.1, l.color⟩

/-- The mutation of the light list performed after painting: the light at
index 1 receives the animation step, all other lights are unchanged (a list
too short to have index 1 is returned unchanged). -/
def animate_lights : List light → List light
| l0 :: l1 :: rest => l0 :: light_step l1 :: rest
| ls => ls

/-- The full on_paint callback (main.cpp lines 86-116): paint every pixel of
the width-by-height buffer, then animate the light at index 1 and request a
redraw; the camera and the shape list are read but never written.  The
result bundles the final buffer, the (unchanged) camera and shapes, the
updated lights, and the redraw request. -/
def on_paint (c : camera) (shapes : List shape) (lights : List light)
    (w h : ℕ) (buf : ℕ → ℕ) :
    (ℕ → ℕ) × camera × List shape × List light × Bool :=
(paint_buffer c shapes lights w h buf, c, shapes, animate_lights lights, true)

/-- The on_resize callback (main.cpp lines 161-167): the camera viewport is
set to the new width and height and a redraw is requested. -/
def on_resize (c : camera) (w h : ℕ) : camera × Bool :=
({ c with width := w, height := h }, true)

/-- The eleven key codes handled by on_keydown (main.cpp lines 121-154):
Escape, W, A, S, D, Shift, Space, Up, Down, Left, Right. -/
def handled_keys : List ℕ := [27, 87, 65, 83, 68, 16, 32, 38, 40, 37, 39]

/-- The ten movement and rotation keys (the handled keys without Escape). -/
def movement_rotation_keys : List ℕ := [87, 65, 83, 68, 16, 32, 38, 40, 37, 39]

/-- The on_keydown callback (main.cpp lines 118-159): Escape closes the
window, WASD/Shift/Space translate the camera, the arrow keys rotate it;
every handled key falls through to the redraw call after the switch, while
an unhandled key returns early with no camera change and no redraw.  The
result is the new camera, the close request and the redraw request. -/
def on_keydown (c : camera) (key : ℕ) : camera × Bool × Bool :=
match key with
| 27 => (c, true, true)
| 87 => ({ c with position := c.position.add_v (vector3.smul 0.1 c.direction) }, false, true)
| 65 => ({ c with position :=
    c.position.sub_v (vector3.smul 0.1 ((c.direction.cross ⟨0, 1, 0⟩).normalized)) }, false, true)
| 83 => ({ c with position := c.position.sub_v (vector3.smul 0.1 c.direction) }, false, true)
| 68 => ({ c with position :=
    c.position.add_v (vector3.smul 0.1 ((c.direction.cross ⟨0, 1, 0⟩).normalized)) }, false, true)
| 16 => ({ c with position := c.position.sub_v ⟨0, 0.1, 0⟩ }, false, true)
| 32 => ({ c with position := c.position.add_v ⟨0, 0.1, 0⟩ }, false, true)
| 38 => ({ c with direction := quaternion.rotate_degrees c.direction ⟨1, 0, 0⟩ 2 }, false, true)
| 40 => ({ c with direction := quaternion.rotate_degrees c.direction ⟨1, 0, 0⟩ (-2) }, false, true)
| 37 => ({ c with direction := quaternion.rotate_degrees c.direction ⟨0, 1, 0⟩ (-2) }, false, true)
| 39 => ({ c with direction := quaternion.rotate_degrees c.direction ⟨0, 1, 0⟩ 2 }, false, true)
| _ => (c, false, false)

/-- Outcome of the startup code of main: the platform error codes printed,
the exit code of main, and whether the blocking event loop was entered. -/
structure main_outcome where
  reported_errors : List ℕ
  exit_code : Option ℤ
  entered_loop : Bool

/-- The startup control flow of main (main.cpp lines 174-180): if showing
the window fails, the last platform error code is printed once and main
returns -1; otherwise the blocking event loop is entered and main returns 0
when it exits. -/
def main_flow (show_ok : Bool) (last_error : ℕ) : main_outcome :=
if show_ok then ⟨[], some 0, true⟩ else ⟨[last_error], some (-1), false⟩

/-- Test fixture: a shape with upward normal and the Phong coefficients
ambient 1/2, diffuse 1, specular 0, shininess 1. -/
def cex2_shape : shape := ⟨fun _ => ⟨0, 0, 1⟩, ⟨1/2, 1, 0, 1, color.black⟩, fun _ => none⟩

/-- Test fixture: a unit-intensity light at (1, 0, 0), in the surface plane. -/
def cex2_light : light := ⟨⟨1, 0, 0⟩, 1, color.black⟩

/-- Test fixture: a unit-intensity light at (0, 0, -1), behind the surface. -/
def cexb_light : light := ⟨⟨0, 0, -1⟩, 1, color.black⟩

/-- Test fixture: a camera below the surface looking up. -/
def cex2_cam : camera := ⟨⟨0, 0, -1⟩, ⟨0, 0, 1⟩, 1, 1, 60⟩

/-- Test fixture: the surface point at the origin. -/
def cex2_p : point3 := ⟨0, 0, 0⟩

/-- Test fixture: a shape with upward normal, ambient 0, diffuse 0,
specular 1, shininess 1. -/
def cex3_shape : shape := ⟨fun _ => ⟨0, 0, 1⟩, ⟨0, 0, 1, 1, color.black⟩, fun _ => none⟩

/-- Test fixture: a unit-intensity light at (0, 0, 1), along the normal. -/
def cex3_light : light := ⟨⟨0, 0, 1⟩, 1, color.black⟩

/-- Test fixture: a camera at (0, 0, 1) above the surface point. -/
def cex3_cam : camera := ⟨⟨0, 0, 1⟩, ⟨0, 0, -1⟩, 1, 1, 60⟩

/-- Test fixture: the surface point at the origin for the specular test. -/
def cex3_p : point3 := ⟨0, 0, 0⟩

/-- A vector whose dot square is 1 is its own normalization. -/
theorem vector3.normalized_of_dot_one (v : vector3) (h : v.dot v = 1) : v.normalized = v := by
  unfold vector3.normalized vector3.length
  rw [h, Real.sqrt_one]
  cases v
  simp

/-- The diffuse angle of the in-plane light fixture is exactly 0. -/
theorem cex2_diffuse_angle : diffuse_angle cex2_shape cex2_light cex2_p = 0 := by
  have hv : cex2_p.vector_to cex2_light.position = ⟨1, 0, 0⟩ := by
    norm_num [point3.vector_to, cex2_p, cex2_light]
  have hn : (⟨1, 0, 0⟩ : vector3).normalized = ⟨1, 0, 0⟩ :=
    vector3.normalized_of_dot_one _ (by norm_num [vector3.dot])
  unfold diffuse_angle
  rw [hv, hn]
  norm_num [cex2_shape, vector3.dot]

/-- The attenuation of the in-plane light fixture at the origin is 1. -/
theorem cex2_isl : cex2_light.inverse_square_law cex2_p = 1 := by
  norm_num [light.inverse_square_law, point3.distance_squared, cex2_light, cex2_p]

/-- The diffuse angle of the behind-the-surface light fixture is -1. -/
theorem cexb_diffuse_angle : diffuse_angle cex2_shape cexb_light cex2_p = -1 := by
  have hv : cex2_p.vector_to cexb_light.position = ⟨0, 0, -1⟩ := by
    norm_num [point3.vector_to, cex2_p, cexb_light]
  have hn : (⟨0, 0, -1⟩ : vector3).normalized = ⟨0, 0, -1⟩ :=
    vector3.normalized_of_dot_one _ (by norm_num [vector3.dot])
  unfold diffuse_angle
  rw [hv, hn]
  norm_num [cex2_shape, vector3.dot]

/-- The diffuse angle of the along-the-normal light fixture is 1. -/
theorem cex3_diffuse_angle : diffuse_angle cex3_shape cex3_light cex3_p = 1 := by
  have hv : cex3_p.vector_to cex3_light.position = ⟨0, 0, 1⟩ := by
    norm_num [point3.vector_to, cex3_p, cex3_light]
  have hn : (⟨0, 0, 1⟩ : vector3).normalized = ⟨0, 0, 1⟩ :=
    vector3.normalized_of_dot_one _ (by norm_num [vector3.dot])
  unfold diffuse_angle
  rw [hv, hn]
  norm_num [cex3_shape, vector3.dot]

/-- The specular angle of the along-the-normal fixture is -1: the mirrored
light direction points back along the normal while the view vector from the
camera to the point points down it. -/
theorem cex3_specular_angle : specular_angle cex3_shape cex3_cam cex3_light cex3_p = -1 := by
  have hv : cex3_p.vector_to cex3_light.position = ⟨0, 0, 1⟩ := by
    norm_num [point3.vector_to, cex3_p, cex3_light]
  have hn : (⟨0, 0, 1⟩ : vector3).normalized = ⟨0, 0, 1⟩ :=
    vector3.normalized_of_dot_one _ (by norm_num [vector3.dot])
  have hvc : cex3_cam.position.vector_to cex3_p = ⟨0, 0, -1⟩ := by
    norm_num [point3.vector_to, cex3_p, cex3_cam]
  have hn2 : (⟨0, 0, -1⟩ : vector3).normalized = ⟨0, 0, -1⟩ :=
    vector3.normalized_of_dot_one _ (by norm_num [vector3.dot])
  have hmir : quaternion.mirror ⟨0, 0, 1⟩ (cex3_shape.normal_at cex3_p) = ⟨0, 0, 1⟩ := by
    norm_num [quaternion.mirror, cex3_shape, vector3.dot, vector3.smul, vector3.sub]
  unfold specular_angle
  rw [hv, hn, hvc, hn2, hmir]
  norm_num [vector3.dot]

/-- The attenuation of the along-the-normal light fixture at the origin is 1. -/
theorem cex3_isl : cex3_light.inverse_square_law cex3_p = 1 := by
  norm_num [light.inverse_square_law, point3.distance_squared, cex3_light, cex3_p]

/-- The shading function evaluates to -1 on the specular fixture: the
unclamped specular angle -1 raised to shininess 1 survives with its sign. -/
theorem cex3_intensity : calculate_light_intensity cex3_shape cex3_light cex3_cam cex3_p = -1 := by
  unfold calculate_light_intensity
  rw [cex3_diffuse_angle, cex3_specular_angle, cex3_isl]
  rw [if_neg (by norm_num : ¬ (1 : ℝ) < 0)]
  norm_num [cex3_shape, Real.rpow_one, min_def]

/-- The clamped-specular spec policy evaluates to 0 on the specular fixture. -/
theorem cex3_clamped_intensity : shade_spec_clamped cex3_shape cex3_light cex3_cam cex3_p = 0 := by
  unfold shade_spec_clamped
  rw [cex3_diffuse_angle, cex3_specular_angle, cex3_isl]
  rw [if_neg (by norm_num : ¬ (1 : ℝ) < 0)]
  rw [show max (-1 : ℝ) 0 = 0 from max_eq_right (by norm_num)]
  norm_num [cex3_shape, Real.rpow_one, min_def]

/-- C1: for every shape, light, camera and surface point with valid inputs
(non-negative Phong coefficients and light intensity), the shading function
returns min(1, (ambient + diffuse * angle + specular term) *
inverse_square_law(point)) whenever the light is not behind the surface;
with the specular base clamped to be non-negative (shade_spec_clamped) the
result lies in [0, 1]; and the returned intensity never exceeds 1. -/
theorem c1_shading_formula_and_bounds (s : shape) (l : light) (c : camera) (ip : point3)
    (ha : 0 ≤ s.get_material.ambient) (hd : 0 ≤ s.get_material.diffuse)
    (hsp : 0 ≤ s.get_material.specular) (hi : 0 ≤ l.intensity) :
    (0 ≤ diffuse_angle s l ip →
      calculate_light_intensity s l c ip =
        min 1 ((s.get_material.ambient
          + s.get_material.diffuse * diffuse_angle s l ip
          + s.get_material.specular
            * (specular_angle s c l ip) ^ s.get_material.shininess)
          * l.inverse_square_law ip))
    ∧ (0 ≤ shade_spec_clamped s l c ip ∧ shade_spec_clamped s l c ip ≤ 1)
    ∧ calculate_light_intensity s l c ip ≤ 1 := by
  have hisl : 0 ≤ l.inverse_square_law ip := by
    unfold light.inverse_square_law
    exact div_nonneg hi (by unfold point3.distance_squared; positivity)
  refine ⟨?_, ⟨?_, ?_⟩, ?_⟩
  · intro h
    unfold calculate_light_intensity
    rw [if_neg (not_lt.2 h)]
  · unfold shade_spec_clamped
    split_ifs with h
    · exact le_refl 0
    · push_neg at h
      have hpow : 0 ≤ (max (specular_angle s c l ip) 0) ^ s.get_material.shininess :=
        Real.rpow_nonneg (le_max_right _ _) _
      have hbase := add_nonneg (add_nonneg ha (mul_nonneg hd h)) (mul_nonneg hsp hpow)
      exact le_min zero_le_one (mul_nonneg hbase hisl)
  · unfold shade_spec_clamped
    split_ifs with h
    · exact zero_le_one
    · exact min_le_left _ _
  · unfold calculate_light_intensity
    split_ifs with h
    · exact zero_le_one
    · exact min_le_left _ _

/-- Witness for C1 at the concrete in-plane fixture: the coefficient and
intensity hypotheses hold there and the theorem applies. -/
theorem c1_shading_formula_and_bounds_witness :
    (0 ≤ cex2_shape.get_material.ambient ∧ 0 ≤ cex2_shape.get_material.diffuse
      ∧ 0 ≤ cex2_shape.get_material.specular ∧ 0 ≤ cex2_light.intensity)
    ∧ ((0 ≤ diffuse_angle cex2_shape cex2_light cex2_p →
        calculate_light_intensity cex2_shape cex2_light cex2_cam cex2_p =
          min 1 ((cex2_shape.get_material.ambient
            + cex2_shape.get_material.diffuse * diffuse_angle cex2_shape cex2_light cex2_p
            + cex2_shape.get_material.specular
              * (specular_angle cex2_shape cex2_cam cex2_light cex2_p)
                ^ cex2_shape.get_material.shininess)
            * cex2_light.inverse_square_law cex2_p))
      ∧ (0 ≤ shade_spec_clamped cex2_shape cex2_light cex2_cam cex2_p
          ∧ shade_spec_clamped cex2_shape cex2_light cex2_cam cex2_p ≤ 1)
      ∧ calculate_light_intensity cex2_shape cex2_light cex2_cam cex2_p ≤ 1) :=
⟨⟨by norm_num [cex2_shape], by norm_num [cex2_shape], by norm_num [cex2_shape],
    by norm_num [cex2_light]⟩,
  c1_shading_formula_and_bounds cex2_shape cex2_light cex2_cam cex2_p
    (by norm_num [cex2_shape]) (by norm_num [cex2_shape]) (by norm_num [cex2_shape])
    (by norm_num [cex2_light])⟩

/-- Counterexample to C2 as stated: at the in-plane fixture the dot product
of the normal with the unit vector toward the light is exactly 0, yet the
shading function returns 1/2 (the attenuated ambient term), not 0: the code
only returns 0 for a strictly negative dot product. -/
theorem c2_counterexample :
    diffuse_angle cex2_shape cex2_light cex2_p ≤ 0 ∧
    calculate_light_intensity cex2_shape cex2_light cex2_cam cex2_p ≠ 0 := by
  have hval : calculate_light_intensity cex2_shape cex2_light cex2_cam cex2_p = 1/2 := by
    unfold calculate_light_intensity
    rw [cex2_diffuse_angle, cex2_isl]
    rw [if_neg (lt_irrefl (0 : ℝ))]
    norm_num [cex2_shape, min_def]
  exact ⟨le_of_eq cex2_diffuse_angle, by rw [hval]; norm_num⟩

/-- C2 amended: whenever the dot product of the outward normal with the unit
vector from the point toward the light is STRICTLY negative, the shading
function returns exactly 0 (at a dot product of exactly 0 the ambient and
specular terms still contribute). -/
theorem c2_amended_backface_zero (s : shape) (l : light) (c : camera) (ip : point3)
    (h : diffuse_angle s l ip < 0) :
    calculate_light_intensity s l c ip = 0 := by
  unfold calculate_light_intensity
  rw [if_pos h]

/-- Witness for the amended C2 at the behind-the-surface light fixture,
whose diffuse angle is -1. -/
theorem c2_amended_backface_zero_witness :
    diffuse_angle cex2_shape cexb_light cex2_p < 0 ∧
    calculate_light_intensity cex2_shape cexb_light cex2_cam cex2_p = 0 :=
⟨by rw [cexb_diffuse_angle]; norm_num,
  c2_amended_backface_zero cex2_shape cexb_light cex2_cam cex2_p
    (by rw [cexb_diffuse_angle]; norm_num)⟩

/-- Counterexample to C3 as stated: on the specular fixture the specular
angle is -1, the code computes (-1) ^ 1 = -1 and returns -1, while the
claimed clamped computation max(-1, 0) ^ 1 = 0 would return 0: the code
does not clamp the specular base. -/
theorem c3_counterexample :
    specular_angle cex3_shape cex3_cam cex3_light cex3_p < 0 ∧
    calculate_light_intensity cex3_shape cex3_light cex3_cam cex3_p ≠
      shade_spec_clamped cex3_shape cex3_light cex3_cam cex3_p := by
  refine ⟨by rw [cex3_specular_angle]; norm_num, ?_⟩
  rw [cex3_intensity, cex3_clamped_intensity]
  norm_num

/-- C3 amended: when the diffuse angle is non-negative, the specular term is
the UNclamped specular angle raised to the shininess exponent; no
non-negativity clamp is applied to the base before exponentiation. -/
theorem c3_amended_unclamped_specular (s : shape) (l : light) (c : camera) (ip : point3)
    (h : 0 ≤ diffuse_angle s l ip) :
    calculate_light_intensity s l c ip =
      min 1 ((s.get_material.ambient
        + s.get_material.diffuse * diffuse_angle s l ip
        + s.get_material.specular
          * (specular_angle s c l ip) ^ s.get_material.shininess)
        * l.inverse_square_law ip) := by
  unfold calculate_light_intensity
  rw [if_neg (not_lt.2 h)]

/-- Witness for the amended C3 at the specular fixture, whose diffuse angle
is 1. -/
theorem c3_amended_unclamped_specular_witness :
    0 ≤ diffuse_angle cex3_shape cex3_light cex3_p ∧
    calculate_light_intensity cex3_shape cex3_light cex3_cam cex3_p =
      min 1 ((cex3_shape.get_material.ambient
        + cex3_shape.get_material.diffuse * diffuse_angle cex3_shape cex3_light cex3_p
        + cex3_shape.get_material.specular
          * (specular_angle cex3_shape cex3_cam cex3_light cex3_p)
            ^ cex3_shape.get_material.shininess)
        * cex3_light.inverse_square_law cex3_p) :=
⟨by rw [cex3_diffuse_angle]; norm_num,
  c3_amended_unclamped_specular cex3_shape cex3_light cex3_cam cex3_p
    (by rw [cex3_diffuse_angle]; norm_num)⟩

/-- The shape fold of the compositor keeps the accumulator of the last list
element whose intersection test succeeds: folding the replace-on-hit step
equals taking the last element of the per-hit accumulator list, with the
initial color as the default. -/
theorem shade_pixel_foldl_aux (c : camera) (lights : List light) (r : ray) :
    ∀ (l : List shape) (init : color),
      l.foldl (fun col s =>
        match s.intersection r with
        | some ip => shape_light_accum s lights c ip
        | none => col) init
      = ((l.filterMap fun s =>
            (s.intersection r).map fun ip => shape_light_accum s lights c ip).getLast?).getD
          init := by
  intro l
  induction l with
  | nil => intro init; simp
  | cons s t ih =>
    intro init
    cases hs : s.intersection r with
    | none =>
      simp only [List.foldl_cons, List.filterMap_cons, hs, Option.map_none']
      exact ih init
    | some ip =>
      simp only [List.foldl_cons, List.filterMap_cons, hs, Option.map_some']
      rw [ih (shape_light_accum s lights c ip)]
      cases hl : t.filterMap fun s => (s.intersection r).map fun ip => shape_light_accum s lights c ip with
      | nil => simp
      | cons b bt =>
        have hne : b :: bt ≠ [] := by simp
        obtain ⟨z, hz⟩ := Option.isSome_iff_exists.1 (List.getLast?_isSome.2 hne)
        rw [List.getLast?_cons_cons, hz]
        simp

/-- C4: for every pixel the compositor sets the pixel color to the per-shape
accumulator (shape_light_accum: the sum over all lights, in order, of the
material base color blended with the light color and scaled by the shading
intensity) of the LAST shape in enumeration order whose intersection test
with the pixel ray succeeds, falling back to black; no nearest-hit or depth
selection across shapes is performed. -/
theorem c4_last_intersecting_shape_wins (c : camera) (shapes : List shape)
    (lights : List light) (px py : ℕ) :
    shade_pixel c shapes lights px py =
      ((shapes.filterMap fun s =>
          (s.intersection (c.shoot_ray px py 10)).map fun ip =>
            shape_light_accum s lights c ip).getLast?).getD color.black := by
  unfold shade_pixel
  exact shade_pixel_foldl_aux c lights (c.shoot_ray px py 10) shapes color.black

/-- Applying writes over an appended list applies the two halves in order. -/
theorem apply_writes_append (a b : List (ℕ × ℕ)) (f : ℕ → ℕ) :
    apply_writes (a ++ b) f = apply_writes b (apply_writes a f) := by
  induction a generalizing f with
  | nil => rfl
  | cons kv t ih =>
    simp only [List.cons_append, apply_writes]
    exact ih _

/-- A buffer slot whose offset is never written keeps its previous value. -/
theorem apply_writes_of_not_mem (ws : List (ℕ × ℕ)) (f : ℕ → ℕ) (k : ℕ)
    (h : k ∉ ws.map Prod.fst) : apply_writes ws f k = f k := by
  induction ws generalizing f with
  | nil => rfl
  | cons kv t ih =>
    simp only [List.map_cons, List.mem_cons] at h
    push_neg at h
    simp only [apply_writes]
    rw [ih _ h.2, Function.update_noteq h.1]

/-- In a write list whose offsets are duplicate-free, a recorded write
determines the final buffer value at its offset. -/
theorem apply_writes_of_mem (ws : List (ℕ × ℕ)) (f : ℕ → ℕ) (k v : ℕ)
    (hnd : (ws.map Prod.fst).Nodup) (hm : (k, v) ∈ ws) : apply_writes ws f k = v := by
  induction ws generalizing f with
  | nil => cases hm
  | cons kv t ih =>
    simp only [List.map_cons, List.nodup_cons] at hnd
    simp only [apply_writes]
    rcases List.mem_cons.1 hm with h | h
    · subst h
      rw [apply_writes_of_not_mem t _ k hnd.1]
      exact Function.update_same _ _ _
    · exact ih _ hnd.2 h

/-- The nested paint loop equals applying the frame write list in order. -/
theorem paint_buffer_eq_apply_writes (c : camera) (shapes : List shape)
    (lights : List light) (w h : ℕ) (buf : ℕ → ℕ) :
    paint_buffer c shapes lights w h buf = apply_writes (frame_writes c shapes lights w h) buf := by
  unfold paint_buffer frame_writes
  suffices H : ∀ (ys : List ℕ) (f : ℕ → ℕ),
      ys.foldl (fun b y =>
        (List.range w).foldl
          (fun b x => Function.update b (y * w + x) ((shade_pixel c shapes lights x y).argb)) b) f
      = apply_writes (ys.flatMap (row_writes c shapes lights w)) f from H _ _
  intro ys
  induction ys with
  | nil => intro f; rfl
  | cons y t ih =>
    intro f
    have hrow : ∀ (xs : List ℕ) (f : ℕ → ℕ),
        xs.foldl (fun b x => Function.update b (y * w + x) ((shade_pixel c shapes lights x y).argb)) f
        = apply_writes (xs.map fun x => (y * w + x, (shade_pixel c shapes lights x y).argb)) f := by
      intro xs
      induction xs with
      | nil => intro f; rfl
      | cons x xt ihx =>
        intro f
        simp only [List.foldl_cons, List.map_cons, apply_writes]
        exact ihx _
    rw [List.foldl_cons, List.flatMap_cons, apply_writes_append, ih _]
    rw [row_writes, hrow]

/-- The offsets written by one paint pass are exactly 0, 1, ..., w*h - 1 in
row-major order: every offset in the buffer range once and nothing else. -/
theorem frame_writes_keys (c : camera) (shapes : List shape) (lights : List light)
    (w h : ℕ) :
    (frame_writes c shapes lights w h).map Prod.fst = List.range (w * h) := by
  induction h with
  | zero => rfl
  | succ n ih =>
    unfold frame_writes at ih ⊢
    rw [List.range_succ, List.flatMap_append, List.map_append, ih,
      show w * (n + 1) = w * n + w by ring, List.range_add]
    congr 1
    simp only [List.flatMap_cons, List.flatMap_nil, List.append_nil, row_writes, List.map_map]
    apply List.map_congr_left
    intro a _
    simp [Function.comp, Nat.mul_comm]

/-- The painted buffer holds the packed pixel color at the row-major offset
of each in-range pixel, regardless of the previous buffer contents. -/
theorem paint_buffer_get (c : camera) (shapes : List shape) (lights : List light)
    (w h : ℕ) (buf : ℕ → ℕ) (x y : ℕ) (hx : x < w) (hy : y < h) :
    paint_buffer c shapes lights w h buf (y * w + x) = (shade_pixel c shapes lights x y).argb := by
  rw [paint_buffer_eq_apply_writes]
  apply apply_writes_of_mem
  · rw [frame_writes_keys]
    exact List.nodup_range _
  · unfold frame_writes row_writes
    refine List.mem_flatMap.2 ⟨y, List.mem_range.2 hy, ?_⟩
    exact List.mem_map.2 ⟨x, List.mem_range.2 hx, rfl⟩

/-- Test fixture: a simple camera for the compositor witnesses. -/
def wit_cam : camera := ⟨⟨0, 0, 0⟩, ⟨0, 0, 1⟩, 1, 1, 60⟩

/-- C5: each paint pass stores the packed color of pixel (x, y) at the
row-major offset y * width + x, independently of the previous buffer
contents (so nothing carries over from a previous frame or a previous
size), and the list of offsets it writes is exactly 0, ..., w*h - 1 in
order, each offset exactly once. -/
theorem c5_row_major_full_overwrite (c : camera) (shapes : List shape)
    (lights : List light) (w h : ℕ) (buf : ℕ → ℕ) (x y : ℕ)
    (hx : x < w) (hy : y < h) :
    paint_buffer c shapes lights w h buf (y * w + x) = (shade_pixel c shapes lights x y).argb
    ∧ (frame_writes c shapes lights w h).map Prod.fst = List.range (w * h) :=
⟨paint_buffer_get c shapes lights w h buf x y hx hy,
  frame_writes_keys c shapes lights w h⟩

/-- Witness for C5 on a 1-by-1 frame over an arbitrary stale buffer. -/
theorem c5_row_major_full_overwrite_witness :
    (0 < 1 ∧ 0 < 1)
    ∧ (paint_buffer wit_cam [] [cex2_light] 1 1 (fun _ => 7) (0 * 1 + 0)
        = (shade_pixel wit_cam [] [cex2_light] 0 0).argb
      ∧ (frame_writes wit_cam [] [cex2_light] 1 1).map Prod.fst = List.range (1 * 1)) :=
⟨⟨Nat.one_pos, Nat.one_pos⟩,
  c5_row_major_full_overwrite wit_cam [] [cex2_light] 1 1 (fun _ => 7) 0 0
    Nat.one_pos Nat.one_pos⟩

/-- C6: with an empty shape list every in-range pixel of the painted buffer
is the packed representation of black, for every camera and light list. -/
theorem c6_empty_scene_black (c : camera) (lights : List light) (w h : ℕ)
    (buf : ℕ → ℕ) (x y : ℕ) (hx : x < w) (hy : y < h) :
    paint_buffer c [] lights w h buf (y * w + x) = color.black.argb := by
  rw [paint_buffer_get c [] lights w h buf x y hx hy]
  rfl

/-- Witness for C6 on a 1-by-1 frame with one light. -/
theorem c6_empty_scene_black_witness :
    (0 < 1 ∧ 0 < 1)
    ∧ paint_buffer wit_cam [] [cex3_light] 1 1 (fun _ => 7) (0 * 1 + 0) = color.black.argb :=
⟨⟨Nat.one_pos, Nat.one_pos⟩,
  c6_empty_scene_black wit_cam [cex3_light] 1 1 (fun _ => 7) 0 0 Nat.one_pos Nat.one_pos⟩

/-- C9: rendering is deterministic: two paint passes over the same camera,
shape list and light list agree on every in-range pixel whatever the two
initial buffers were, and the per-pixel value is a function of the pixel
coordinates and the scene state only. -/
theorem c9_deterministic_rendering (c : camera) (shapes : List shape)
    (lights : List light) (w h : ℕ) (buf buf2 : ℕ → ℕ) (x y : ℕ)
    (hx : x < w) (hy : y < h) :
    paint_buffer c shapes lights w h buf (y * w + x)
      = paint_buffer c shapes lights w h buf2 (y * w + x)
    ∧ paint_buffer c shapes lights w h buf (y * w + x)
      = (shade_pixel c shapes lights x y).argb := by
  rw [paint_buffer_get c shapes lights w h buf x y hx hy,
    paint_buffer_get c shapes lights w h buf2 x y hx hy]
  exact ⟨rfl, rfl⟩

/-- Witness for C9 on a 1-by-1 frame with two different stale buffers. -/
theorem c9_deterministic_rendering_witness :
    (0 < 1 ∧ 0 < 1)
    ∧ (paint_buffer wit_cam [] [cex2_light] 1 1 (fun _ => 3) (0 * 1 + 0)
        = paint_buffer wit_cam [] [cex2_light] 1 1 (fun _ => 9) (0 * 1 + 0)
      ∧ paint_buffer wit_cam [] [cex2_light] 1 1 (fun _ => 3) (0 * 1 + 0)
        = (shade_pixel wit_cam [] [cex2_light] 0 0).argb) :=
⟨⟨Nat.one_pos, Nat.one_pos⟩,
  c9_deterministic_rendering wit_cam [] [cex2_light] 1 1 (fun _ => 3) (fun _ => 9) 0 0
    Nat.one_pos Nat.one_pos⟩

/-- C7: after the buffer is painted, on_paint leaves the camera and the
shape list unchanged, requests a redraw, applies exactly the fixed
animation step light_step (position offset (0.1, 0.05, -0.1), intensity
increment 0.1, color untouched) to the light at index 1, and leaves every
other light unchanged. -/
theorem c7_animation_step (c : camera) (shapes : List shape) (lights : List light)
    (w h : ℕ) (buf : ℕ → ℕ) :
    (on_paint c shapes lights w h buf).2.1 = c
    ∧ (on_paint c shapes lights w h buf).2.2.1 = shapes
    ∧ (on_paint c shapes lights w h buf).2.2.2.2 = true
    ∧ (∀ i, i ≠ 1 → ((on_paint c shapes lights w h buf).2.2.2.1)[i]? = lights[i]?)
    ∧ (∀ l1, lights[1]? = some l1 →
        ((on_paint c shapes lights w h buf).2.2.2.1)[1]? = some (light_step l1)) := by
  refine ⟨rfl, rfl, rfl, ?_, ?_⟩
  · intro i hi
    show (animate_lights lights)[i]? = lights[i]?
    cases lights with
    | nil => rfl
    | cons a t =>
      cases t with
      | nil => rfl
      | cons b t2 =>
        cases i with
        | zero => rfl
        | succ j =>
          cases j with
          | zero => exact absurd rfl hi
          | succ n => rfl
  · intro l1 h1
    cases lights with
    | nil => simp at h1
    | cons a t =>
      cases t with
      | nil => simp at h1
      | cons b t2 =>
        simp only [List.getElem?_cons_succ, List.getElem?_cons_zero, Option.some.injEq] at h1
        show (a :: light_step b :: t2)[1]? = some (light_step l1)
        rw [h1]
        simp only [List.getElem?_cons_succ, List.getElem?_cons_zero]

/-- Witness for C7 on a concrete two-light scene: light 0 is untouched,
light 1 receives the animation step, and a redraw is requested. -/
theorem c7_animation_step_witness :
    ((on_paint wit_cam [] [cex2_light, cex3_light] 1 1 (fun _ => 7)).2.2.2.1)[0]?
      = [cex2_light, cex3_light][0]?
    ∧ ((on_paint wit_cam [] [cex2_light, cex3_light] 1 1 (fun _ => 7)).2.2.2.1)[1]?
      = some (light_step cex3_light)
    ∧ (on_paint wit_cam [] [cex2_light, cex3_light] 1 1 (fun _ => 7)).2.2.2.2 = true :=
⟨(c7_animation_step wit_cam [] [cex2_light, cex3_light] 1 1 (fun _ => 7)).2.2.2.1 0
    (by decide),
  (c7_animation_step wit_cam [] [cex2_light, cex3_light] 1 1 (fun _ => 7)).2.2.2.2 cex3_light
    rfl,
  (c7_animation_step wit_cam [] [cex2_light, cex3_light] 1 1 (fun _ => 7)).2.2.1⟩

/-- C8: if showing the window fails at startup, the platform error code is
reported exactly once and main exits with the non-zero status -1 without
entering the event loop; otherwise nothing is reported and the blocking
event loop is entered. -/
theorem c8_startup_failure (ok : Bool) (e : ℕ) :
    (ok = false →
      main_flow ok e = ⟨[e], some (-1), false⟩
      ∧ (main_flow ok e).reported_errors.length = 1
      ∧ ∀ z, (main_flow ok e).exit_code = some z → z ≠ 0)
    ∧ (ok = true →
      (main_flow ok e).entered_loop = true ∧ (main_flow ok e).reported_errors = []) := by
  cases ok with
  | false =>
    refine ⟨fun _ => ⟨rfl, rfl, ?_⟩, fun h => by cases h⟩
    intro z hz
    simp only [main_flow, Bool.false_eq_true, if_false, Option.some.injEq] at hz
    omega
  | true => exact ⟨fun h => Bool.noConfusion h, fun _ => ⟨rfl, rfl⟩⟩

/-- Witness for C8 at a concrete failing and a concrete succeeding startup. -/
theorem c8_startup_failure_witness :
    main_flow false 5 = ⟨[5], some (-1), false⟩
    ∧ (main_flow true 0).entered_loop = true :=
⟨((c8_startup_failure false 5).1 rfl).1, ((c8_startup_failure true 0).2 rfl).1⟩

/-- C10: a keydown with a key code other than the eleven handled keys leaves
the camera unchanged and requests neither a close nor a redraw; every
handled movement or rotation key (all handled keys except Escape) requests
a redraw and no close, mutating only the camera. -/
theorem c10_keydown_dispatch (c : camera) (key : ℕ) :
    (key ∉ handled_keys → on_keydown c key = (c, false, false))
    ∧ (key ∈ movement_rotation_keys → (on_keydown c key).2 = (false, true)) := by
  constructor
  · intro h
    simp only [handled_keys, List.mem_cons, List.not_mem_nil, or_false] at h
    push_neg at h
    unfold on_keydown
    split <;> simp_all
  · intro h
    fin_cases h <;> rfl

/-- Witness for C10: key code 0 is unhandled and leaves everything alone,
while the W key requests a redraw and no close. -/
theorem c10_keydown_dispatch_witness :
    on_keydown wit_cam 0 = (wit_cam, false, false)
    ∧ (on_keydown wit_cam 87).2 = (false, true) :=
⟨(c10_keydown_dispatch wit_cam 0).1 (by decide),
  (c10_keydown_dispatch wit_cam 87).2 (by decide)⟩
